import Mathlib

/-!
Verification of the AI multi-agent orchestrator (task scheduler, merge
coordinator, recovery) against its natural-language specification.

The Python sources are shallowly embedded as pure Lean functions over an
explicit `Store` record that models the Redis state:
  * `init.py`              — `recover_stuck_tasks`
  * `main.py`              — `claim_task`, `complete_task`, `unregister_agent`,
                             `find_next_available_task`,
                             `all_dependencies_complete`,
                             `dead_agent_cleanup_service` (one pass),
                             `determine_role`
  * `merge_coordinator.py` — `queue_merge` (inside complete),
                             `_handle_conflict`, `_handle_test_failure`,
                             `_handle_merge_failure`, `_mark_task_merged`,
                             `_notify_agent`, `_check_phase_advancement`,
                             `_process_merge`
Timestamps are integers (`datetime.now()` becomes an explicit `now`
parameter); Redis hashes become association lists over string keys.
-/

namespace Orchestrator

/-- A task record as stored in the `orchestrator:tasks` Redis hash.
Python dict keys that are only sometimes present (`started_at`,
`completed_at`, `blocked_reason`, ...) are `Option` fields, `none`
standing for an absent key (or JSON null). -/
structure Task where
  id : String
  title : String
  type_ : String
  dependencies : List String
  status : String
  assignedTo : Option String
  startedAt : Option Int
  completedAt : Option Int
  mergedAt : Option Int
  blockedReason : Option String
  blockedAt : Option Int
  prUrl : Option String
  branchName : Option String
  conflictBranch : Option String
  conflictAt : Option Int
  errorInfo : Option String
  deriving DecidableEq, Repr

/-- An agent record as stored in the `orchestrator:agents` Redis hash. -/
structure Agent where
  sessionId : String
  status : String
  currentTask : Option String
  currentRole : Option String
  registeredAt : Int
  lastHeartbeat : Int
  tasksCompleted : Nat
  tasksFailed : Nat
  deriving DecidableEq, Repr

/-- A phase record (element of `orchestrator:phases`, and the
`orchestrator:current_phase` singleton). -/
structure Phase where
  id : Nat
  name : String
  tasks : List String
  status : String
  startedAt : Option Int
  completedAt : Option Int
  deriving DecidableEq, Repr

/-- A merge request queued in `orchestrator:merge_queue`
(`MergeCoordinator.queue_merge`). -/
structure MergeRequest where
  taskId : String
  prUrl : Option String
  branchName : Option String
  agentId : String
  queuedAt : Int
  status : String
  retryCount : Nat
  deriving DecidableEq, Repr

/-- A pub/sub notification envelope (`MergeCoordinator._notify_agent`). -/
structure Notification where
  agentId : String
  taskId : String
  eventType : String
  deriving DecidableEq, Repr

/-- `hget`: lookup in a Redis hash modelled as an association list. -/
def hget {α : Type} (l : List (String × α)) (k : String) : Option α :=
  (l.find? (fun p => p.1 = k)).map (fun p => p.2)

/-- `hset`: write a field of a Redis hash (replace the entry when the key
exists — hash keys are unique — append otherwise). -/
def hset {α : Type} : List (String × α) → String → α → List (String × α)
  | [], k, v => [(k, v)]
  | p :: rest, k, v =>
    if p.1 = k then (k, v) :: rest else p :: hset rest k v

/-- `hdel` / `delete`: remove a key from a hash. -/
def hdel {α : Type} (l : List (String × α)) (k : String) : List (String × α) :=
  l.filter (fun p => ¬ p.1 = k)

/-- Python truthiness of an optional string (`None` and `""` are falsy). -/
def strTruthy : Option String → Bool
  | none => false
  | some s => ¬ s.isEmpty

/-- The whole Redis state used by the orchestrator. -/
structure Store where
  tasks : List (String × Task)
  agents : List (String × Agent)
  locks : List (String × String)
  currentPhase : Option Phase
  phases : Option (List Phase)
  mergeQueue : List MergeRequest
  activeMerges : List (String × MergeRequest)
  published : List Notification
  pendingNotifs : List Notification
  deriving DecidableEq, Repr

/-- The configuration slice the embedded operations read:
`redis.agent_timeout`, `advanced.retry_failed_tasks`, and the
`agent_assignment.<type>.enabled` flags (absent types default to enabled,
mirroring `.get(task_type, {}).get('enabled', True)`). -/
structure Config where
  agentTimeout : Int
  retryFailedTasks : Bool
  agentAssignment : List (String × Bool)
  taskLockTtl : Nat
  deriving DecidableEq, Repr

/-- `CONFIG['agent_assignment'].get(task_type, {}).get('enabled', True)`. -/
def typeEnabled (cfg : Config) (ty : String) : Bool :=
  ((cfg.agentAssignment.find? (fun p => p.1 = ty)).map (fun p => p.2)).getD true

/-! ## `init.py`: `recover_stuck_tasks` -/

/-- The set of live agents computed by `recover_stuck_tasks`:
those whose last heartbeat is strictly younger than `agent_timeout`. -/
def activeAgents (s : Store) (now timeout : Int) : List String :=
  (s.agents.filter (fun p => now - p.2.lastHeartbeat < timeout)).map (fun p => p.1)

/-- Case 1 guard of the recovery loop: `in_progress`, with a truthy
`assigned_to` that is not an active agent. -/
def recoverCase1 (active : List String) (t : Task) : Bool :=
  t.status = "in_progress" &&
    (match t.assignedTo with
     | some a => ¬ a.isEmpty && ¬ active.contains a
     | none => false)

/-- Case 2 guard of the recovery loop: `failed` while retry is enabled. -/
def recoverCase2 (retryFailed : Bool) (t : Task) : Bool :=
  t.status = "failed" && retryFailed

/-- The per-task body of the `recover_stuck_tasks` loop.  Case 1 resets the
task to pending, clears `assigned_to` and deletes `started_at`; case 2
resets a failed task to pending, deleting `completed_at` and `error`. -/
def recoverTask (active : List String) (retryFailed : Bool) (t : Task) : Task :=
  if recoverCase1 active t then
    { t with status := "pending", assignedTo := none, startedAt := none }
  else if recoverCase2 retryFailed t then
    { t with status := "pending", assignedTo := none,
             completedAt := none, errorInfo := none }
  else t

/-- `recover_stuck_tasks(redis_client, config)` from `init.py`.  The loop
iterates the task hash and `hset`s each recovered task back under its own
key; since hash keys are unique this is a pointwise map.  Returns the
recovered count together with the new store. -/
def recover_stuck_tasks (s : Store) (now : Int) (cfg : Config) : Nat × Store :=
  let active := activeAgents s now cfg.agentTimeout
  let cnt := s.tasks.countP
    (fun p => recoverCase1 active p.2 || recoverCase2 cfg.retryFailedTasks p.2)
  (cnt,
   { s with tasks :=
      s.tasks.map (fun p => (p.1, recoverTask active cfg.retryFailedTasks p.2)) })

/-! ## `main.py`: helpers, claim, complete, unregister, sweeper -/

/-- `determine_role(task_type)` from `main.py`. -/
def determine_role (taskType : String) : String :=
  (hget [("setup", "setup-specialist"), ("development", "developer"),
         ("testing", "tester"), ("security", "security-auditor"),
         ("documentation", "technical-writer"), ("review", "code-reviewer")]
    taskType).getD "developer"

/-- The loop of `all_dependencies_complete(task)` over the dependency list.
A `merged` dependency is skipped; a `failed` dependency marks the scanned
task `blocked` (writing `blocked_reason` and `blocked_at`) and returns
false; any other status (missing, pending, in_progress, done, blocked, ...)
returns false without writing. -/
def depsLoop (now : Int) (task : Task) :
    List String → Store → Bool × Store
  | [], s => (true, s)
  | depId :: rest, s =>
    match hget s.tasks depId with
    | none => (false, s)
    | some dep =>
      if dep.status = "merged" then
        depsLoop now task rest s
      else if dep.status = "failed" then
        let blockedTask :=
          { task with status := "blocked",
                      blockedReason := some ("Dependency " ++ depId ++ " failed"),
                      blockedAt := some now }
        (false, { s with tasks := hset s.tasks task.id blockedTask })
      else
        (false, s)

/-- `all_dependencies_complete(task)` from `main.py` (Fix #17). -/
def all_dependencies_complete (now : Int) (s : Store) (task : Task) :
    Bool × Store :=
  depsLoop now task task.dependencies s

/-- The scan of `find_next_available_task(phase, agent_id)`: walk the
phase's task ids in stored order, skipping ids with no record, tasks whose
status is not `pending`, and disabled task types; run the dependency check
(which may write a `blocked` status) and return the first task that
passes. -/
def findNextLoop (cfg : Config) (now : Int) :
    List String → Store → Option Task × Store
  | [], s => (none, s)
  | tid :: rest, s =>
    match hget s.tasks tid with
    | none => findNextLoop cfg now rest s
    | some task =>
      if ¬ task.status = "pending" then
        findNextLoop cfg now rest s
      else if ¬ typeEnabled cfg task.type_ then
        findNextLoop cfg now rest s
      else
        match all_dependencies_complete now s task with
        | (true, s1) => (some task, s1)
        | (false, s1) => findNextLoop cfg now rest s1

/-- `find_next_available_task(phase, agent_id)` from `main.py`. -/
def find_next_available_task (cfg : Config) (now : Int) (phase : Phase)
    (s : Store) : Option Task × Store :=
  findNextLoop cfg now phase.tasks s

/-- Responses of the HTTP handlers (claim / complete / unregister). -/
inductive ClaimResp where
  | badRequest
  | agentNotFound
  | noActivePhase
  | noTasks
  | claimed (taskId role : String)
  | maxAttempts
  deriving DecidableEq, Repr

/-- Result of `claim_task`, instrumented with the number of scans of the
phase performed (`find_next_available_task` invocations). -/
structure ClaimResult where
  resp : ClaimResp
  store : Store
  scans : Nat
  deriving DecidableEq, Repr

/-- The `for attempt in range(max_attempts)` loop of `claim_task`:
read the current phase, scan it, and on a found task attempt the
`SET NX` lock; a lost compare-and-set race continues the loop, everything
else returns.  `agent` is the record read once before the loop
(`agent_json` in the source) and reused for the post-claim agent update. -/
def claimLoop (cfg : Config) (agentId : String) (agent : Agent) (now : Int) :
    Nat → Store → Nat → ClaimResult
  | 0, s, scans => ⟨.maxAttempts, s, scans⟩
  | fuel + 1, s, scans =>
    match s.currentPhase with
    | none => ⟨.noActivePhase, s, scans⟩
    | some phase =>
      match find_next_available_task cfg now phase s with
      | (none, s1) => ⟨.noTasks, s1, scans + 1⟩
      | (some task, s1) =>
        if (hget s1.locks task.id).isSome then
          claimLoop cfg agentId agent now fuel s1 (scans + 1)
        else
          let s2 := { s1 with locks := hset s1.locks task.id agentId }
          let task1 := { task with status := "in_progress",
                                   assignedTo := some agentId,
                                   startedAt := some now }
          let s3 := { s2 with tasks := hset s2.tasks task.id task1 }
          let role := determine_role task.type_
          let agent1 := { agent with status := "working",
                                     currentTask := some task.id,
                                     currentRole := some role }
          let s4 := { s3 with agents := hset s3.agents agentId agent1 }
          ⟨.claimed task.id role, s4, scans + 1⟩

/-- `claim_task()` from `main.py`: parameter validation, agent existence
check, then the atomic-claim loop with `max_attempts = 10`. -/
def claim_task (cfg : Config) (now : Int) (s : Store)
    (agentId : Option String) : ClaimResult :=
  match agentId with
  | none => ⟨.badRequest, s, 0⟩
  | some aid =>
    if aid.isEmpty then ⟨.badRequest, s, 0⟩
    else
      match hget s.agents aid with
      | none => ⟨.agentNotFound, s, 0⟩
      | some agent => claimLoop cfg aid agent now 10 s 0

/-- Responses of `complete_task` / `unregister_agent`. -/
inductive Resp where
  | ok
  | badRequest
  | notFound
  deriving DecidableEq, Repr

/-- The task record written by `complete_task`: status per the success
flag, `completed_at` stamped, and `pr_url` / `branch_name` kept when a
truthy value was supplied. -/
def completedTaskRecord (t : Task) (success : Bool)
    (prUrl branchName : Option String) (now : Int) : Task :=
  let t1 := { t with status := if success then "done" else "failed",
                     completedAt := some now }
  let t2 := if strTruthy prUrl then { t1 with prUrl := prUrl } else t1
  if strTruthy branchName then { t2 with branchName := branchName } else t2

/-- The agent record written by `complete_task` when the agent exists:
idle, no current task or role, and the success/failure counter bumped. -/
def completedAgentRecord (ag : Agent) (success : Bool) : Agent :=
  { ag with status := "idle", currentTask := none, currentRole := none,
            tasksCompleted :=
              if success then ag.tasksCompleted + 1 else ag.tasksCompleted,
            tasksFailed :=
              if success then ag.tasksFailed else ag.tasksFailed + 1 }

/-- `complete_task()` from `main.py`: no ownership or status precondition;
sets `done`/`failed` per the success flag, stamps `completed_at`, keeps
`pr_url`/`branch_name` if provided, releases the lock, updates the agent
record when it exists, and enqueues a merge request iff a coordinator is
installed, the task succeeded and both a PR url and branch name were
given.  The Python writes the task, lock, agent and merge-queue keys in
sequence; they are distinct store fields, so the final state is this
single record. -/
def complete_task (s : Store) (agentId taskId : Option String)
    (success : Bool) (prUrl branchName : Option String) (now : Int)
    (hasCoordinator : Bool) : Resp × Store :=
  if ¬ strTruthy agentId ∨ ¬ strTruthy taskId then (.badRequest, s)
  else
    match agentId, taskId with
    | some aid, some tid =>
      match hget s.tasks tid with
      | none => (.notFound, s)
      | some t =>
        let newAgents :=
          match hget s.agents aid with
          | none => s.agents
          | some ag => hset s.agents aid (completedAgentRecord ag success)
        let newQueue :=
          if hasCoordinator ∧ success ∧ strTruthy prUrl ∧ strTruthy branchName then
            s.mergeQueue ++
              [{ taskId := tid, prUrl := prUrl, branchName := branchName,
                 agentId := aid, queuedAt := now, status := "queued",
                 retryCount := 0 }]
          else s.mergeQueue
        (.ok, { s with
                  tasks := hset s.tasks tid
                    (completedTaskRecord t success prUrl branchName now),
                  locks := hdel s.locks tid,
                  agents := newAgents,
                  mergeQueue := newQueue })
    | _, _ => (.badRequest, s)

/-- `unregister_agent()` from `main.py`: if the agent exists and holds a
`current_task`, delete that task's lock and reset the task (if it exists)
to `pending` with `assigned_to = None`; then remove the agent.  Note that
`started_at` is left untouched. -/
def unregister_agent (s : Store) (agentId : Option String) : Resp × Store :=
  match agentId with
  | none => (.badRequest, s)
  | some aid =>
    if aid.isEmpty then (.badRequest, s)
    else
      let s1 :=
        match hget s.agents aid with
        | none => s
        | some ag =>
          match ag.currentTask with
          | none => s
          | some ct =>
            let sA := { s with locks := hdel s.locks ct }
            match hget sA.tasks ct with
            | none => sA
            | some t =>
              let t1 := { t with status := "pending", assignedTo := none }
              { sA with tasks := hset sA.tasks ct t1 }
      (.ok, { s1 with agents := hdel s1.agents aid })

/-- The per-agent body of the `dead_agent_cleanup_service` loop: if the
agent's heartbeat is older than `agent_timeout`, delete its current task's
lock and — only if the lock key was actually deleted — reset the task to
`pending` with `assigned_to = None` (leaving `started_at` in place); the
dead agent is removed from the registry in either case. -/
def sweepOne (now timeout : Int) (s : Store) (p : String × Agent) : Store :=
  let (aid, agent) := p
  if now - agent.lastHeartbeat > timeout then
    let s1 :=
      match agent.currentTask with
      | none => s
      | some ct =>
        let lockDeleted := (hget s.locks ct).isSome
        let sA := { s with locks := hdel s.locks ct }
        if lockDeleted then
          match hget sA.tasks ct with
          | none => sA
          | some t =>
            let t1 := { t with status := "pending", assignedTo := none }
            { sA with tasks := hset sA.tasks ct t1 }
        else sA
    { s1 with agents := hdel s1.agents aid }
  else s

/-- One pass of `dead_agent_cleanup_service()` from `main.py`: the agent
hash is snapshot once (`r.hgetall`) and each entry is processed in order. -/
def dead_agent_cleanup_pass (s : Store) (now timeout : Int) : Store :=
  s.agents.foldl (sweepOne now timeout) s

/-! ## `merge_coordinator.py` -/

namespace MergeCoordinator

/-- `_notify_agent`: publish the event on the agent's channel and append it
to the agent's pending-notifications list. -/
def notify_agent (s : Store) (agentId taskId eventType : String) : Store :=
  let n : Notification := { agentId := agentId, taskId := taskId,
                            eventType := eventType }
  { s with published := s.published ++ [n],
           pendingNotifs := s.pendingNotifs ++ [n] }

/-- `_mark_task_merged`: set the task's status to `merged` with a
timestamp (when the task record exists). -/
def mark_task_merged (s : Store) (taskId : String) (now : Int) : Store :=
  match hget s.tasks taskId with
  | none => s
  | some t =>
    let t1 := { t with status := "merged", mergedAt := some now }
    { s with tasks := hset s.tasks taskId t1 }

/-- `_handle_conflict`: set the task status to `conflict`, record the
branch and detection time, and notify the agent. -/
def handle_conflict (s : Store) (req : MergeRequest) (now : Int) : Store :=
  let s1 :=
    match hget s.tasks req.taskId with
    | none => s
    | some t =>
      let t1 := { t with status := "conflict",
                         conflictBranch := req.branchName,
                         conflictAt := some now }
      { s with tasks := hset s.tasks req.taskId t1 }
  notify_agent s1 req.agentId req.taskId "conflict_detected"

/-- `_handle_test_failure`: set the task status to `test_failed` and
notify the agent. -/
def handle_test_failure (s : Store) (req : MergeRequest) (now : Int) : Store :=
  let s1 :=
    match hget s.tasks req.taskId with
    | none => s
    | some t =>
      { s with tasks := hset s.tasks req.taskId ({ t with status := "test_failed" }) }
  notify_agent s1 req.agentId req.taskId "tests_failed"

/-- Result of `_handle_merge_failure`: the new store, the re-enqueued
request when a retry was scheduled, and the `time.sleep` duration in
seconds when one was performed. -/
structure FailureResult where
  store : Store
  requeued : Option MergeRequest
  slept : Option Nat
  deriving DecidableEq, Repr

/-- `_handle_merge_failure`: if `retry_count < 3`, sleep
`5 * (retry_count + 1)` seconds and push the request back on the queue
with the counter incremented; otherwise set the task's status to
`merge_failed` (when the record exists) and publish a terminal
`merge_failed` event. -/
def handle_merge_failure (s : Store) (req : MergeRequest) (now : Int) :
    FailureResult :=
  let rc := req.retryCount
  if rc < 3 then
    let req1 := { req with retryCount := rc + 1 }
    { store := { s with mergeQueue := s.mergeQueue ++ [req1] },
      requeued := some req1,
      slept := some (5 * (rc + 1)) }
  else
    let s1 :=
      match hget s.tasks req.taskId with
      | none => s
      | some t =>
        let t1 := { t with status := "merge_failed" }
        { s with tasks := hset s.tasks req.taskId t1 }
    { store := notify_agent s1 req.agentId req.taskId "merge_failed",
      requeued := none, slept := none }

/-- The terminal-state test of `_check_phase_advancement`: every listed
task id either has no record (skipped with `continue`) or is in
{merged, failed, blocked}. -/
def phaseAllComplete (s : Store) (taskIds : List String) : Bool :=
  taskIds.all (fun tid =>
    match hget s.tasks tid with
    | none => true
    | some t => t.status = "merged" ∨ t.status = "failed" ∨ t.status = "blocked")

/-- `_check_phase_advancement`: read the current phase; if all its tasks
are terminal, mark the phase completed and either activate the next phase
(writing both back into the phases list and installing the next phase as
current) or, when no next phase exists, delete the current-phase key.
Phase ids are 1-based (`calculate_phases` numbers from 1), so
`phase.id - 1` is the completed phase's list index and `phase.id` the next
phase's.  The returned boolean records whether the completion branch
(`phase['status'] = 'completed'`) was taken. -/
def check_phase_advancement (s : Store) (now : Int) : Store × Bool :=
  match s.currentPhase with
  | none => (s, false)
  | some phase =>
    if phaseAllComplete s phase.tasks then
      let phase1 := { phase with status := "completed", completedAt := some now }
      match s.phases with
      | none => (s, true)
      | some phases =>
        if h : phase.id < phases.length then
          let nextPhase := phases.get ⟨phase.id, h⟩
          let next1 := { nextPhase with status := "active", startedAt := some now }
          let phases1 := (phases.set (phase.id - 1) phase1).set phase.id next1
          ({ s with phases := some phases1, currentPhase := some next1 }, true)
        else
          ({ s with currentPhase := none }, true)
    else (s, false)

/-- Outcome of the git/test steps of one `_process_merge` pipeline run
(steps 1-5 act on the repository, not on the store; the store only sees
which handler was reached). -/
inductive MergeOutcome where
  | conflict
  | testFailed
  | mergeFailed
  | success
  deriving DecidableEq, Repr

/-- `_process_merge`: register the request in `active_merges`, dispatch on
the pipeline outcome (conflict / test failure / integration failure /
success; the success path marks the task merged, notifies the agent and
runs the phase-advancement check), then remove the request from
`active_merges`. -/
def process_merge (s : Store) (req : MergeRequest) (outcome : MergeOutcome)
    (now : Int) : Store :=
  let s0 := { s with activeMerges := hset s.activeMerges req.taskId req }
  let s1 :=
    match outcome with
    | .conflict => handle_conflict s0 req now
    | .testFailed => handle_test_failure s0 req now
    | .mergeFailed => (handle_merge_failure s0 req now).store
    | .success =>
      let sA := mark_task_merged s0 req.taskId now
      let sB := notify_agent sA req.agentId req.taskId "merge_success"
      (check_phase_advancement sB now).1
  { s1 with activeMerges := hdel s1.activeMerges req.taskId }

/-- One pop-and-handle chain of a merge request through repeated
integration failures: `PopChain s req n` holds when the request, popped in
state `s`, is handled by `_handle_merge_failure` a total of `n` times
before reaching the terminal branch (each re-enqueue is popped again). -/
inductive PopChain (now : Int) : Store → MergeRequest → Nat → Prop where
  | last (s : Store) (req : MergeRequest)
      (h : (handle_merge_failure s req now).requeued = none) :
      PopChain now s req 1
  | step (s : Store) (req req1 : MergeRequest) (n : Nat)
      (h : (handle_merge_failure s req now).requeued = some req1)
      (hc : PopChain now (handle_merge_failure s req now).store req1 n) :
      PopChain now s req (n + 1)

end MergeCoordinator

/-! ## Shared concrete fixtures -/

/-- A fully-specified baseline task record for concrete runs. -/
def baseTask : Task :=
  { id := "T", title := "task", type_ := "development", dependencies := [],
    status := "pending", assignedTo := none, startedAt := none,
    completedAt := none, mergedAt := none, blockedReason := none,
    blockedAt := none, prUrl := none, branchName := none,
    conflictBranch := none, conflictAt := none, errorInfo := none }

/-- A baseline agent record. -/
def baseAgent : Agent :=
  { sessionId := "s1", status := "idle", currentTask := none,
    currentRole := none, registeredAt := 0, lastHeartbeat := 0,
    tasksCompleted := 0, tasksFailed := 0 }

/-- A baseline phase record. -/
def basePhase : Phase :=
  { id := 1, name := "Phase 1", tasks := [], status := "active",
    startedAt := some 0, completedAt := none }

/-- The empty store. -/
def emptyStore : Store :=
  { tasks := [], agents := [], locks := [], currentPhase := none,
    phases := none, mergeQueue := [], activeMerges := [], published := [],
    pendingNotifs := [] }

/-- A baseline config: 300 s agent timeout, retry of failed tasks enabled
(the code's default), every task type enabled. -/
def baseConfig : Config :=
  { agentTimeout := 300, retryFailedTasks := true, agentAssignment := [],
    taskLockTtl := 3600 }

/-- A concrete failed task (terminal per the spec). -/
def failedTask : Task :=
  { baseTask with id := "T1", status := "failed", completedAt := some 3 }

/-- Store holding only `failedTask`. -/
def storeFailed : Store := { emptyStore with tasks := [("T1", failedTask)] }

/-- A concrete merged task. -/
def mergedTask : Task :=
  { baseTask with id := "M1", status := "merged", mergedAt := some 4 }

/-- Store holding only `mergedTask`. -/
def storeMerged : Store := { emptyStore with tasks := [("M1", mergedTask)] }

/-- A blocked dependency record. -/
def blockedDep : Task :=
  { baseTask with id := "D1", status := "blocked",
                  blockedReason := some "Dependency D0 failed",
                  blockedAt := some 1 }

/-- A pending task depending on the blocked `blockedDep`. -/
def dependentTask : Task := { baseTask with id := "T2", dependencies := ["D1"] }

/-- Store with the blocked dependency and its dependent. -/
def storeBlockedDep : Store :=
  { emptyStore with tasks := [("D1", blockedDep), ("T2", dependentTask)] }

/-- A dead agent (stale heartbeat) holding task T3. -/
def deadAgentT3 : Agent :=
  { baseAgent with currentTask := some "T3", currentRole := some "developer",
                   status := "working", lastHeartbeat := 0 }

/-- Task T3, in progress and assigned to the dead agent. -/
def inProgressT3 : Task :=
  { baseTask with id := "T3", status := "in_progress",
                  assignedTo := some "ai-agent-1", startedAt := some 2 }

/-- Store where the dead agent's task lock has already expired. -/
def storeDeadNoLock : Store :=
  { emptyStore with tasks := [("T3", inProgressT3)],
                    agents := [("ai-agent-1", deadAgentT3)] }

/-- Store where the dead agent's task lock is still present. -/
def storeDeadWithLock : Store :=
  { storeDeadNoLock with locks := [("T3", "ai-agent-1")] }

/-- Store with a registered agent and an active phase whose only listed
task id has no record, so every scan of the phase is exhausted. -/
def storeScanEmpty : Store :=
  { emptyStore with agents := [("ai-agent-1", baseAgent)],
                    currentPhase := some { basePhase with tasks := ["GONE"] } }

/-- A pending, dependency-free task T4. -/
def pendingT4 : Task := { baseTask with id := "T4" }

/-- Store where T4 is claimable but its lock is held by another agent, so
every compare-and-set attempt is lost. -/
def storeLocked : Store :=
  { emptyStore with tasks := [("T4", pendingT4)],
                    agents := [("ai-agent-1", baseAgent)],
                    locks := [("T4", "ai-agent-2")],
                    currentPhase := some { basePhase with tasks := ["T4"] } }

/-- A merge request for task T5 with a given retry count. -/
def mreq (n : Nat) : MergeRequest :=
  { taskId := "T5", prUrl := some "https://example.test/pr/7",
    branchName := some "ai-agent-1/task-T5", agentId := "ai-agent-1",
    queuedAt := 0, status := "queued", retryCount := n }

/-- Task T5, completed and awaiting merge. -/
def doneT5 : Task :=
  { baseTask with id := "T5", status := "done", completedAt := some 6 }

/-- Store holding T5. -/
def storeT5 : Store := { emptyStore with tasks := [("T5", doneT5)] }

/-- A merged task T6 for phase-advancement scenarios. -/
def mergedT6 : Task :=
  { baseTask with id := "T6", status := "merged", mergedAt := some 8 }

/-- A single phase listing only T6. -/
def phaseT6 : Phase := { basePhase with tasks := ["T6"] }

/-- Store with one phase (listing the merged T6) and no next phase. -/
def storePhaseDone : Store :=
  { emptyStore with tasks := [("T6", mergedT6)],
                    currentPhase := some phaseT6,
                    phases := some [phaseT6] }

/-- Phase 1 of a two-phase plan. -/
def phaseOne : Phase := { basePhase with id := 1, tasks := ["T6"] }

/-- Phase 2 of a two-phase plan, still pending. -/
def phaseTwo : Phase :=
  { basePhase with id := 2, name := "Phase 2", tasks := ["T9"],
                   status := "pending", startedAt := none }

/-- Store where phase 1 is finished and phase 2 awaits activation. -/
def storeTwoPhases : Store :=
  { emptyStore with tasks := [("T6", mergedT6)],
                    currentPhase := some phaseOne,
                    phases := some [phaseOne, phaseTwo] }

/-- A pending, dependency-free task T7 for the claim–unregister round
trip. -/
def pendingT7 : Task := { baseTask with id := "T7" }

/-- Store with worker ai-agent-1 idle and T7 claimable in the active
phase. -/
def storeT7 : Store :=
  { emptyStore with tasks := [("T7", pendingT7)],
                    agents := [("ai-agent-1", baseAgent)],
                    currentPhase := some { basePhase with tasks := ["T7"] } }

/-- A merged task T8 used to show that complete_task overwrites any
status. -/
def mergedT8 : Task :=
  { baseTask with id := "T8", status := "merged", mergedAt := some 4 }

/-- Store with the merged T8, its stale lock, and no registered agents. -/
def storeT8 : Store :=
  { emptyStore with tasks := [("T8", mergedT8)],
                    locks := [("T8", "ai-agent-9")] }

/-- A phase listing only task ids with no records in the store. -/
def phantomPhase : Phase := { basePhase with tasks := ["GHOST1", "GHOST2"] }

/-- Store whose current phase lists only missing task ids, with a pending
next phase. -/
def storePhantom : Store :=
  { emptyStore with currentPhase := some phantomPhase,
                    phases := some [phantomPhase, phaseTwo] }

/-! ## Basic hash lemmas -/

theorem hget_nil {α : Type} (k : String) : hget ([] : List (String × α)) k = none :=
  rfl

theorem hget_cons {α : Type} (p : String × α) (l : List (String × α))
    (k : String) :
    hget (p :: l) k = if p.1 = k then some p.2 else hget l k := by
  by_cases h : p.1 = k <;> simp [hget, List.find?, h]

theorem hget_map {α : Type} (f : α → α) (l : List (String × α)) (k : String) :
    hget (l.map (fun p => (p.1, f p.2))) k = (hget l k).map f := by
  induction l with
  | nil => rfl
  | cons hd tl ih =>
    by_cases h : hd.1 = k
    · simp [hget_cons, h]
    · simp [hget_cons, h, ih]

theorem hget_hset_self {α : Type} (l : List (String × α)) (k : String) (v : α) :
    hget (hset l k v) k = some v := by
  induction l with
  | nil => simp [hset, hget_cons]
  | cons p rest ih =>
    by_cases h : p.1 = k
    · simp [hset, h, hget_cons]
    · simp [hset, h, hget_cons, ih]

theorem hget_hset_ne {α : Type} (l : List (String × α)) (k k' : String)
    (v : α) (h : ¬ k' = k) : hget (hset l k v) k' = hget l k' := by
  have hk : ¬ k = k' := fun hh => h hh.symm
  induction l with
  | nil => simp [hset, hget_cons, hk, hget_nil]
  | cons p rest ih =>
    by_cases hp : p.1 = k
    · rw [hset, if_pos hp, hget_cons, hget_cons, if_neg hk, if_neg]
      rw [hp]
      exact hk
    · rw [hset, if_neg hp, hget_cons, hget_cons, ih]

theorem hget_hdel_self {α : Type} (l : List (String × α)) (k : String) :
    hget (hdel l k) k = none := by
  induction l with
  | nil => rfl
  | cons p rest ih =>
    by_cases h : p.1 = k
    · simp only [hdel, List.filter_cons] at ih ⊢
      simpa [h] using ih
    · simp only [hdel, List.filter_cons] at ih ⊢
      simpa [h, hget_cons] using ih

theorem depsLoop_nil (now : Int) (task : Task) (s : Store) :
    depsLoop now task [] s = (true, s) := rfl

theorem depsLoop_cons (now : Int) (task : Task) (d : String)
    (rest : List String) (s : Store) :
    depsLoop now task (d :: rest) s =
      match hget s.tasks d with
      | none => (false, s)
      | some dep =>
        if dep.status = "merged" then depsLoop now task rest s
        else if dep.status = "failed" then
          let blockedTask :=
            { task with status := "blocked",
                        blockedReason := some ("Dependency " ++ d ++ " failed"),
                        blockedAt := some now }
          (false, { s with tasks := hset s.tasks task.id blockedTask })
        else (false, s) := rfl

theorem map_eq_self_of_fixed {α : Type} (f : α → α) (l : List α)
    (h : ∀ x ∈ l, f x = x) : l.map f = l := by
  induction l with
  | nil => rfl
  | cons hd tl ih =>
    simp only [List.map_cons, h hd (by simp)]
    rw [ih (fun x hx => h x (by simp [hx]))]

theorem recoverCase1_pending (active : List String) (t : Task)
    (h : t.status = "pending") : recoverCase1 active t = false := by
  simp [recoverCase1, h]

theorem recoverCase2_pending (retryFailed : Bool) (t : Task)
    (h : t.status = "pending") : recoverCase2 retryFailed t = false := by
  simp [recoverCase2, h]

/-- A task produced by `recoverTask` matches neither recovery case. -/
theorem recoverTask_not_matched (active : List String) (retryFailed : Bool)
    (t : Task) :
    recoverCase1 active (recoverTask active retryFailed t) = false ∧
    recoverCase2 retryFailed (recoverTask active retryFailed t) = false := by
  unfold recoverTask
  split
  · exact ⟨recoverCase1_pending _ _ rfl, recoverCase2_pending _ _ rfl⟩
  · split
    · exact ⟨recoverCase1_pending _ _ rfl, recoverCase2_pending _ _ rfl⟩
    · rename_i h1 h2
      exact ⟨Bool.not_eq_true _ |>.mp h1, Bool.not_eq_true _ |>.mp h2⟩

theorem recoverTask_eq_self (active : List String) (retryFailed : Bool)
    (t : Task) (h1 : recoverCase1 active t = false)
    (h2 : recoverCase2 retryFailed t = false) :
    recoverTask active retryFailed t = t := by
  unfold recoverTask
  simp [h1, h2]

/-- `recoverTask` is idempotent. -/
theorem recoverTask_idem (active : List String) (retryFailed : Bool) (t : Task) :
    recoverTask active retryFailed (recoverTask active retryFailed t)
      = recoverTask active retryFailed t :=
  recoverTask_eq_self active retryFailed _
    (recoverTask_not_matched active retryFailed t).1
    (recoverTask_not_matched active retryFailed t).2

/-- C8: running the recovery sweep twice in succession with no intervening
operations leaves the state identical to the state after the first run, and
the second run recovers zero tasks. -/
theorem recovery_idempotent (s : Store) (now : Int) (cfg : Config) :
    recover_stuck_tasks (recover_stuck_tasks s now cfg).2 now cfg
      = (0, (recover_stuck_tasks s now cfg).2) := by
  unfold recover_stuck_tasks
  simp only [activeAgents, Prod.mk.injEq]
  have hfix : (s.tasks.map (fun p =>
      (p.1, recoverTask
        ((s.agents.filter (fun q => now - q.2.lastHeartbeat < cfg.agentTimeout)).map
          (fun q => q.1)) cfg.retryFailedTasks p.2))).map (fun p =>
      (p.1, recoverTask
        ((s.agents.filter (fun q => now - q.2.lastHeartbeat < cfg.agentTimeout)).map
          (fun q => q.1)) cfg.retryFailedTasks p.2))
      = s.tasks.map (fun p =>
      (p.1, recoverTask
        ((s.agents.filter (fun q => now - q.2.lastHeartbeat < cfg.agentTimeout)).map
          (fun q => q.1)) cfg.retryFailedTasks p.2)) := by
    apply map_eq_self_of_fixed
    intro p hp
    obtain ⟨q, hq, rfl⟩ := List.mem_map.mp hp
    simp [recoverTask_idem]
  refine ⟨?_, ?_⟩
  · rw [List.countP_map, List.countP_eq_zero]
    intro p _
    have h := recoverTask_not_matched
      ((s.agents.filter (fun q => now - q.2.lastHeartbeat < cfg.agentTimeout)).map
        (fun q => q.1)) cfg.retryFailedTasks p.2
    simp [Function.comp, h.1, h.2]
  · rw [hfix]

/-! ## Claim C1: terminal-status monotonicity -/

/-- C1 counterexample: the recovery sweep (run automatically at coordinator
startup and from POST /cleanup, with `retry_failed_tasks` enabled — its
default) moves a task whose status is the terminal "failed" back to
"pending", so a terminal status is changed by an ordinary operation without
any administrator reset. -/
theorem recovery_resets_failed_counterexample :
    (hget (recover_stuck_tasks storeFailed 10 baseConfig).2.tasks "T1").map
        Task.status = some "pending" ∧
    ¬ ((hget (recover_stuck_tasks storeFailed 10 baseConfig).2.tasks "T1").map
        Task.status = some "failed") := by
  decide

/-- C1 (amended): once a task's status is "merged" or "blocked" the
recovery/cleanup sweep leaves its record entirely unchanged; a "failed"
status however is not terminal under recovery: whenever
`retry_failed_tasks` is enabled the sweep rewrites the task to "pending",
clearing `assigned_to`, `completed_at` and `error`. -/
theorem recovery_terminal_status_behaviour (s : Store) (now : Int)
    (cfg : Config) (tid : String) (t : Task) :
    (hget s.tasks tid = some t → t.status = "merged" ∨ t.status = "blocked" →
      hget (recover_stuck_tasks s now cfg).2.tasks tid = some t) ∧
    (hget s.tasks tid = some t → t.status = "failed" →
      cfg.retryFailedTasks = true →
      hget (recover_stuck_tasks s now cfg).2.tasks tid =
        some ({ t with status := "pending", assignedTo := none,
                       completedAt := none, errorInfo := none })) := by
  constructor
  · intro hg hst
    simp only [recover_stuck_tasks]
    rw [hget_map, hg]
    have h1 : recoverCase1 (activeAgents s now cfg.agentTimeout) t = false := by
      rcases hst with h | h <;> simp [recoverCase1, h]
    have h2 : recoverCase2 cfg.retryFailedTasks t = false := by
      rcases hst with h | h <;> simp [recoverCase2, h]
    simp [recoverTask_eq_self _ _ _ h1 h2]
  · intro hg hst hr
    simp only [recover_stuck_tasks]
    rw [hget_map, hg]
    have h1 : recoverCase1 (activeAgents s now cfg.agentTimeout) t = false := by
      simp [recoverCase1, hst]
    simp [recoverTask, h1, recoverCase2, hst, hr]

/-- Witness for `recovery_terminal_status_behaviour` at concrete inputs:
a merged task is untouched, a failed task is reset. -/
theorem recovery_terminal_status_behaviour_witness :
    hget (recover_stuck_tasks storeMerged 10 baseConfig).2.tasks "M1"
      = some mergedTask ∧
    hget (recover_stuck_tasks storeFailed 10 baseConfig).2.tasks "T1"
      = some ({ failedTask with status := "pending", assignedTo := none,
                                completedAt := none, errorInfo := none }) :=
  ⟨(recovery_terminal_status_behaviour storeMerged 10 baseConfig "M1"
      mergedTask).1 (by decide) (by decide),
   (recovery_terminal_status_behaviour storeFailed 10 baseConfig "T1"
      failedTask).2 (by decide) (by decide) (by decide)⟩

/-! ## Claim C2: blocked dependencies are not infectious -/

theorem depsLoop_no_write_of_merged_blocked (now : Int) (task : Task)
    (s : Store) :
    ∀ deps : List String,
      (∀ d ∈ deps, ∃ u, hget s.tasks d = some u ∧
        (u.status = "merged" ∨ u.status = "blocked")) →
      (depsLoop now task deps s).2 = s ∧
      ((∃ d ∈ deps, ∃ u, hget s.tasks d = some u ∧ u.status = "blocked") →
        (depsLoop now task deps s).1 = false) := by
  intro deps
  induction deps with
  | nil =>
    intro _
    refine ⟨rfl, ?_⟩
    rintro ⟨d, hd, _⟩
    simp at hd
  | cons d rest ih =>
    intro hall
    obtain ⟨u, hu, hstat⟩ := hall d (by simp)
    rcases hstat with hm | hb
    · have hrec := ih (fun x hx => hall x (by simp [hx]))
      have hstep : depsLoop now task (d :: rest) s = depsLoop now task rest s := by
        rw [depsLoop_cons, hu]
        simp [hm]
      rw [hstep]
      refine ⟨hrec.1, ?_⟩
      rintro ⟨x, hx, w, hw, hws⟩
      rcases List.mem_cons.mp hx with rfl | hmem
      · rw [hu] at hw
        obtain rfl := Option.some.inj hw
        rw [hm] at hws
        exact absurd hws (by decide)
      · exact hrec.2 ⟨x, hmem, w, hw, hws⟩
    · have hstep : depsLoop now task (d :: rest) s = (false, s) := by
        rw [depsLoop_cons, hu]
        simp [hb]
      rw [hstep]
      exact ⟨rfl, fun _ => rfl⟩

/-- C2 (amended): a dependency whose status is "blocked" is not treated
like a "failed" one by the eligibility check: when every dependency of T
is merged or blocked and at least one is blocked,
`all_dependencies_complete` returns false and writes nothing — T stays
"pending" with no `blocked_reason`, so blockedness does not propagate as a
status to dependents (only a "failed" dependency triggers the blocked
transition). -/
theorem blocked_dependency_not_infectious (now : Int) (s : Store)
    (task : Task) (d : String)
    (hall : ∀ x ∈ task.dependencies,
      (hget s.tasks x).map Task.status = some "merged" ∨
      (hget s.tasks x).map Task.status = some "blocked")
    (hd : d ∈ task.dependencies)
    (hb : (hget s.tasks d).map Task.status = some "blocked") :
    all_dependencies_complete now s task = (false, s) := by
  have hall1 : ∀ x ∈ task.dependencies, ∃ w, hget s.tasks x = some w ∧
      (w.status = "merged" ∨ w.status = "blocked") := by
    intro x hx
    rcases hall x hx with h | h
    · obtain ⟨w, hw, hws⟩ := Option.map_eq_some'.mp h
      exact ⟨w, hw, Or.inl hws⟩
    · obtain ⟨w, hw, hws⟩ := Option.map_eq_some'.mp h
      exact ⟨w, hw, Or.inr hws⟩
  obtain ⟨u, hu, hus⟩ := Option.map_eq_some'.mp hb
  have h := depsLoop_no_write_of_merged_blocked now task s task.dependencies hall1
  have hf := h.2 ⟨d, hd, u, hu, hus⟩
  unfold all_dependencies_complete
  rw [Prod.ext_iff]
  exact ⟨hf, h.1⟩

/-- C2 counterexample: T2 depends on the blocked D1; the claim says the
eligibility check transitions T2 to "blocked" with a blockedReason, but
the code leaves T2 "pending" with no blockedReason and no write at all. -/
theorem blocked_dep_counterexample :
    (all_dependencies_complete 10 storeBlockedDep dependentTask).1 = false ∧
    (hget (all_dependencies_complete 10 storeBlockedDep dependentTask).2.tasks
        "T2").map Task.status = some "pending" ∧
    (hget (all_dependencies_complete 10 storeBlockedDep dependentTask).2.tasks
        "T2").map Task.blockedReason = some none := by
  decide

/-- Witness for `blocked_dependency_not_infectious` at concrete inputs. -/
theorem blocked_dependency_not_infectious_witness :
    all_dependencies_complete 10 storeBlockedDep dependentTask
      = (false, storeBlockedDep) := by
  refine blocked_dependency_not_infectious 10 storeBlockedDep dependentTask
    "D1" ?_ (by decide) (by decide)
  intro x hx
  have hx1 : x = "D1" := by
    simpa [dependentTask, baseTask] using hx
  subst hx1
  exact Or.inr (by decide)

/-! ## Claim C3: the liveness sweeper -/

/-- C3 counterexample: a dead worker holds task T3 but its lock key has
already expired; the claim says the sweeper still resets T3 to "pending",
yet after one sweeper pass T3 is untouched (still "in_progress" with its
started_at) while the worker has been removed. -/
theorem sweeper_expired_lock_counterexample :
    (hget (dead_agent_cleanup_pass storeDeadNoLock 1000 300).tasks "T3").map
        Task.status = some "in_progress" ∧
    hget (dead_agent_cleanup_pass storeDeadNoLock 1000 300).agents
        "ai-agent-1" = none := by
  decide

/-- C3 (amended): for a dead worker (heartbeat older than agent_timeout,
here the registry's only entry) holding a current task, one sweeper pass
always deletes the task lock key and removes the worker from the registry;
the task itself is reset to "pending" with assigned_to cleared only when
the lock key was still present — started_at is never stripped — and when
the lock had already expired the task record is left untouched. -/
theorem sweeper_dead_agent_behaviour (s : Store) (now timeout : Int)
    (aid : String) (ag : Agent) (ct : String) (t : Task)
    (hagents : s.agents = [(aid, ag)])
    (hdead : now - ag.lastHeartbeat > timeout)
    (hct : ag.currentTask = some ct) :
    ((hget s.locks ct).isSome = true → hget s.tasks ct = some t →
      dead_agent_cleanup_pass s now timeout =
        { s with locks := hdel s.locks ct,
                 tasks := hset s.tasks ct
                   ({ t with status := "pending", assignedTo := none }),
                 agents := hdel s.agents aid }) ∧
    (hget s.locks ct = none →
      dead_agent_cleanup_pass s now timeout =
        { s with locks := hdel s.locks ct,
                 agents := hdel s.agents aid }) := by
  constructor
  · intro hlock htask
    unfold dead_agent_cleanup_pass
    rw [hagents]
    show sweepOne now timeout s (aid, ag) = _
    simp [sweepOne, hdead, hct, hlock, htask, hagents]
  · intro hlock
    unfold dead_agent_cleanup_pass
    rw [hagents]
    show sweepOne now timeout s (aid, ag) = _
    simp [sweepOne, hdead, hct, hlock, hagents]

/-- Witness for `sweeper_dead_agent_behaviour`: the lock-present case
resets the task (keeping started_at), the lock-expired case leaves it. -/
theorem sweeper_dead_agent_behaviour_witness :
    dead_agent_cleanup_pass storeDeadWithLock 1000 300 =
      { storeDeadWithLock with
          locks := hdel storeDeadWithLock.locks "T3",
          tasks := hset storeDeadWithLock.tasks "T3"
            ({ inProgressT3 with status := "pending", assignedTo := none }),
          agents := hdel storeDeadWithLock.agents "ai-agent-1" } ∧
    dead_agent_cleanup_pass storeDeadNoLock 1000 300 =
      { storeDeadNoLock with
          locks := hdel storeDeadNoLock.locks "T3",
          agents := hdel storeDeadNoLock.agents "ai-agent-1" } :=
  ⟨(sweeper_dead_agent_behaviour storeDeadWithLock 1000 300 "ai-agent-1"
      deadAgentT3 "T3" inProgressT3 rfl (by decide) rfl).1 (by decide) (by decide),
   (sweeper_dead_agent_behaviour storeDeadNoLock 1000 300 "ai-agent-1"
      deadAgentT3 "T3" inProgressT3 rfl (by decide) rfl).2 (by decide)⟩

/-! ## Claim C4: claim-scan retry bound -/

theorem claimLoop_locked_all_attempts (cfg : Config) (aid : String)
    (ag : Agent) (now : Int) (s : Store) (ph : Phase) (t : Task)
    (hph : s.currentPhase = some ph)
    (hfind : find_next_available_task cfg now ph s = (some t, s))
    (hlock : (hget s.locks t.id).isSome = true) :
    ∀ fuel scans, claimLoop cfg aid ag now fuel s scans
      = ⟨.maxAttempts, s, scans + fuel⟩ := by
  intro fuel
  induction fuel with
  | zero => intro scans; simp [claimLoop]
  | succ n ih =>
    intro scans
    simp only [claimLoop, hph, hfind, hlock, if_true]
    rw [ih (scans + 1)]
    have : scans + 1 + n = scans + (n + 1) := by omega
    rw [this]

/-- C4 (amended): when a scan of the active phase finds no claimable
pending task, claim_task returns no_tasks_available immediately after that
single scan — the scan is never retried; the 10-attempt bound applies only
to lost compare-and-set races, which exhaust all 10 scans and end in
claim_failed_max_attempts. -/
theorem claim_scan_retry_behaviour (cfg : Config) (now : Int) (s s1 : Store)
    (aid : String) (ag : Agent) (ph : Phase) (t : Task)
    (hne : aid.isEmpty = false) (hag : hget s.agents aid = some ag)
    (hph : s.currentPhase = some ph) :
    (find_next_available_task cfg now ph s = (none, s1) →
      claim_task cfg now s (some aid) = ⟨.noTasks, s1, 1⟩) ∧
    (find_next_available_task cfg now ph s = (some t, s) →
      (hget s.locks t.id).isSome = true →
      claim_task cfg now s (some aid) = ⟨.maxAttempts, s, 10⟩) := by
  constructor
  · intro hfind
    simp only [claim_task, hne, Bool.false_eq_true, if_false, hag]
    simp only [claimLoop, hph, hfind]
  · intro hfind hlock
    simp only [claim_task, hne, Bool.false_eq_true, if_false, hag]
    exact claimLoop_locked_all_attempts cfg aid ag now s ph t hph hfind hlock 10 0

/-- C4 counterexample: with an active phase whose scan is exhausted (its
only listed task id has no record), claim_task answers no_tasks_available
after a single scan, not after 10 retries of the scan. -/
theorem claim_single_scan_counterexample :
    (claim_task baseConfig 5 storeScanEmpty (some "ai-agent-1")).resp
      = .noTasks ∧
    (claim_task baseConfig 5 storeScanEmpty (some "ai-agent-1")).scans = 1 ∧
    ¬ ((claim_task baseConfig 5 storeScanEmpty (some "ai-agent-1")).scans
      = 10) := by
  decide

/-- Witness for `claim_scan_retry_behaviour`: a store with an exhausted
scan returns after one scan; a store whose only claimable task is locked
by another worker burns all 10 attempts. -/
theorem claim_scan_retry_behaviour_witness :
    claim_task baseConfig 5 storeScanEmpty (some "ai-agent-1")
      = ⟨.noTasks, storeScanEmpty, 1⟩ ∧
    claim_task baseConfig 5 storeLocked (some "ai-agent-1")
      = ⟨.maxAttempts, storeLocked, 10⟩ :=
  ⟨(claim_scan_retry_behaviour baseConfig 5 storeScanEmpty storeScanEmpty
      "ai-agent-1" baseAgent { basePhase with tasks := ["GONE"] } pendingT4
      rfl (by decide) rfl).1 (by decide),
   (claim_scan_retry_behaviour baseConfig 5 storeLocked storeLocked
      "ai-agent-1" baseAgent { basePhase with tasks := ["T4"] } pendingT4
      rfl (by decide) rfl).2 (by decide) (by decide)⟩

/-! ## Claim C5: merge-failure retry policy -/

theorem handle_merge_failure_requeued (s : Store) (req : MergeRequest)
    (now : Int) (req1 : MergeRequest)
    (h : (MergeCoordinator.handle_merge_failure s req now).requeued = some req1) :
    req.retryCount < 3 ∧ req1.retryCount = req.retryCount + 1 := by
  by_cases hl : req.retryCount < 3
  · refine ⟨hl, ?_⟩
    unfold MergeCoordinator.handle_merge_failure at h
    simp [hl] at h
    rw [← h]
  · exfalso
    unfold MergeCoordinator.handle_merge_failure at h
    simp [hl] at h

theorem popChain_bound (now : Int) {s : Store} {req : MergeRequest} {n : Nat}
    (h : MergeCoordinator.PopChain now s req n) :
    n + min req.retryCount 3 ≤ 4 := by
  induction h with
  | last s req hterm =>
    by_cases hl : req.retryCount < 3
    · exfalso
      unfold MergeCoordinator.handle_merge_failure at hterm
      simp [hl] at hterm
    · omega
  | step s req req1 n hre hc ih =>
    obtain ⟨hl, hrc⟩ := handle_merge_failure_requeued _ _ _ _ hre
    rw [hrc] at ih
    omega

/-- C5: on a merge-integration failure with retryCount < 3 the request is
re-enqueued with retryCount+1 after sleeping 5 × (retryCount+1) seconds
(the task record untouched); at retryCount = 3 the task is set to
"merge_failed" — not "failed" — and a terminal merge_failed event is
published, with no re-enqueue; consequently a request entering the queue
with retryCount 0 is popped and failure-handled at most 4 times. -/
theorem merge_failure_retry_policy (s : Store) (req : MergeRequest)
    (now : Int) (t : Task) (n : Nat) :
    (req.retryCount < 3 →
      (MergeCoordinator.handle_merge_failure s req now).requeued
        = some ({ req with retryCount := req.retryCount + 1 }) ∧
      (MergeCoordinator.handle_merge_failure s req now).slept
        = some (5 * (req.retryCount + 1)) ∧
      (MergeCoordinator.handle_merge_failure s req now).store.mergeQueue
        = s.mergeQueue ++ [{ req with retryCount := req.retryCount + 1 }] ∧
      (MergeCoordinator.handle_merge_failure s req now).store.tasks
        = s.tasks) ∧
    (req.retryCount = 3 → hget s.tasks req.taskId = some t →
      hget (MergeCoordinator.handle_merge_failure s req now).store.tasks
          req.taskId = some ({ t with status := "merge_failed" }) ∧
      ¬ ("merge_failed" = "failed") ∧
      (MergeCoordinator.handle_merge_failure s req now).store.published
        = s.published ++ [{ agentId := req.agentId, taskId := req.taskId,
                            eventType := "merge_failed" }] ∧
      (MergeCoordinator.handle_merge_failure s req now).requeued = none ∧
      (MergeCoordinator.handle_merge_failure s req now).store.mergeQueue
        = s.mergeQueue) ∧
    (MergeCoordinator.PopChain now s req n → req.retryCount = 0 → n ≤ 4) := by
  refine ⟨?_, ?_, ?_⟩
  · intro hl
    unfold MergeCoordinator.handle_merge_failure
    simp [hl]
  · intro h3 ht
    have hnl : ¬ req.retryCount < 3 := by omega
    unfold MergeCoordinator.handle_merge_failure
    simp [hnl, ht, MergeCoordinator.notify_agent, hget_hset_self]
  · intro hch h0
    have hb := popChain_bound now hch
    rw [h0] at hb
    omega

/-- Witness for `merge_failure_retry_policy`: the first failure sleeps 5 s
and re-enqueues; the fourth failure marks T5 merge_failed; a concrete
failure chain starting at retryCount 0 has exactly 4 pops. -/
theorem merge_failure_retry_policy_witness :
    (MergeCoordinator.handle_merge_failure storeT5 (mreq 0) 0).slept
      = some 5 ∧
    hget (MergeCoordinator.handle_merge_failure storeT5 (mreq 3) 0).store.tasks
      "T5" = some ({ doneT5 with status := "merge_failed" }) ∧
    (4 : Nat) ≤ 4 := by
  refine ⟨((merge_failure_retry_policy storeT5 (mreq 0) 0 doneT5 0).1
      (by decide)).2.1, ?_, ?_⟩
  · exact ((merge_failure_retry_policy storeT5 (mreq 3) 0 doneT5 0).2.1
      (by decide) (by decide)).1
  · refine (merge_failure_retry_policy storeT5 (mreq 0) 0 doneT5 4).2.2 ?_ rfl
    apply MergeCoordinator.PopChain.step _ _ (mreq 1) _ (by decide)
    apply MergeCoordinator.PopChain.step _ _ (mreq 2) _ (by decide)
    apply MergeCoordinator.PopChain.step _ _ (mreq 3) _ (by decide)
    exact MergeCoordinator.PopChain.last _ _ (by decide)

/-! ## Claim C6: phase advancement -/

theorem handle_conflict_currentPhase (s : Store) (req : MergeRequest)
    (now : Int) :
    (MergeCoordinator.handle_conflict s req now).currentPhase
      = s.currentPhase := by
  unfold MergeCoordinator.handle_conflict MergeCoordinator.notify_agent
  split <;> simp

theorem handle_conflict_phases (s : Store) (req : MergeRequest) (now : Int) :
    (MergeCoordinator.handle_conflict s req now).phases = s.phases := by
  unfold MergeCoordinator.handle_conflict MergeCoordinator.notify_agent
  split <;> simp

theorem handle_test_failure_currentPhase (s : Store) (req : MergeRequest)
    (now : Int) :
    (MergeCoordinator.handle_test_failure s req now).currentPhase
      = s.currentPhase := by
  unfold MergeCoordinator.handle_test_failure MergeCoordinator.notify_agent
  split <;> simp

theorem handle_test_failure_phases (s : Store) (req : MergeRequest)
    (now : Int) :
    (MergeCoordinator.handle_test_failure s req now).phases = s.phases := by
  unfold MergeCoordinator.handle_test_failure MergeCoordinator.notify_agent
  split <;> simp

theorem handle_merge_failure_currentPhase (s : Store) (req : MergeRequest)
    (now : Int) :
    (MergeCoordinator.handle_merge_failure s req now).store.currentPhase
      = s.currentPhase := by
  unfold MergeCoordinator.handle_merge_failure MergeCoordinator.notify_agent
  split <;> (by_cases hl : req.retryCount < 3 <;> simp [hl])

theorem handle_merge_failure_phases (s : Store) (req : MergeRequest)
    (now : Int) :
    (MergeCoordinator.handle_merge_failure s req now).store.phases
      = s.phases := by
  unfold MergeCoordinator.handle_merge_failure MergeCoordinator.notify_agent
  split <;> (by_cases hl : req.retryCount < 3 <;> simp [hl])

theorem check_adv_next_exists (s : Store) (now : Int) (p : Phase)
    (ps : List Phase) (h : p.id < ps.length) (hpos : 1 ≤ p.id)
    (hcp : s.currentPhase = some p) (hps : s.phases = some ps)
    (hall : MergeCoordinator.phaseAllComplete s p.tasks = true) :
    MergeCoordinator.check_phase_advancement s now =
      (let completed := { p with status := "completed", completedAt := some now }
       let activated := { ps.get ⟨p.id, h⟩ with status := "active", startedAt := some now }
       ({ s with phases := some ((ps.set (p.id - 1) completed).set p.id activated),
                 currentPhase := some activated }, true)) := by
  unfold MergeCoordinator.check_phase_advancement
  rw [hcp]
  simp only [hall, if_true, hps]
  rw [dif_pos h]

theorem check_adv_no_next (s : Store) (now : Int) (p : Phase)
    (ps : List Phase) (hcp : s.currentPhase = some p)
    (hps : s.phases = some ps) (hn : ¬ p.id < ps.length)
    (hall : MergeCoordinator.phaseAllComplete s p.tasks = true) :
    MergeCoordinator.check_phase_advancement s now
      = ({ s with currentPhase := none }, true) := by
  unfold MergeCoordinator.check_phase_advancement
  rw [hcp]
  simp only [hall, if_true, hps]
  rw [dif_neg hn]

/-- C6 (amended): within the merge pipeline the phase-advancement check
runs after a successful merge and only then — the conflict, test-failure
and merge-failure outcomes never change the current-phase or phases
slots.  When every task of the current phase is in {merged, failed,
blocked}: with a next phase present, the completed phase is written back
to the phases list and the next phase is activated (status "active",
startedAt = now) and installed as current; with no next phase, the
current-phase slot is cleared, but the phase's "completed" status is not
persisted to the phases list. -/
theorem phase_advancement_behaviour (s : Store) (req : MergeRequest)
    (now : Int) (o : MergeCoordinator.MergeOutcome) (p : Phase)
    (ps : List Phase) :
    (¬ o = .success →
      (MergeCoordinator.process_merge s req o now).currentPhase
        = s.currentPhase ∧
      (MergeCoordinator.process_merge s req o now).phases = s.phases) ∧
    (MergeCoordinator.process_merge s req .success now =
      (let s0 := { s with activeMerges := hset s.activeMerges req.taskId req }
       let s1 := (MergeCoordinator.check_phase_advancement
         (MergeCoordinator.notify_agent
           (MergeCoordinator.mark_task_merged s0 req.taskId now)
           req.agentId req.taskId "merge_success") now).1
       { s1 with activeMerges := hdel s1.activeMerges req.taskId })) ∧
    (∀ (h : p.id < ps.length), 1 ≤ p.id → s.currentPhase = some p →
      s.phases = some ps →
      MergeCoordinator.phaseAllComplete s p.tasks = true →
      MergeCoordinator.check_phase_advancement s now =
        (let completed := { p with status := "completed", completedAt := some now }
         let activated := { ps.get ⟨p.id, h⟩ with status := "active", startedAt := some now }
         ({ s with phases := some ((ps.set (p.id - 1) completed).set p.id activated),
                   currentPhase := some activated }, true))) ∧
    (s.currentPhase = some p → s.phases = some ps → ¬ p.id < ps.length →
      MergeCoordinator.phaseAllComplete s p.tasks = true →
      MergeCoordinator.check_phase_advancement s now
        = ({ s with currentPhase := none }, true)) := by
  refine ⟨?_, rfl, ?_, ?_⟩
  · intro ho
    cases o with
    | success => exact absurd rfl ho
    | conflict =>
      constructor <;>
        simp [MergeCoordinator.process_merge, handle_conflict_currentPhase,
              handle_conflict_phases]
    | testFailed =>
      constructor <;>
        simp [MergeCoordinator.process_merge, handle_test_failure_currentPhase,
              handle_test_failure_phases]
    | mergeFailed =>
      constructor <;>
        simp [MergeCoordinator.process_merge, handle_merge_failure_currentPhase,
              handle_merge_failure_phases]
  · intro h hpos hcp hps hall
    exact check_adv_next_exists s now p ps h hpos hcp hps hall
  · intro hcp hps hn hall
    exact check_adv_no_next s now p ps hcp hps hn hall

/-- C6 counterexample: a single-phase plan whose only task is merged; the
advancement check clears the current-phase slot but the stored phases list
still holds the phase with status "active" — the "completed" mark claimed
by the spec is never persisted. -/
theorem phase_completed_not_persisted_counterexample :
    (MergeCoordinator.check_phase_advancement storePhaseDone 9).1.currentPhase
      = none ∧
    (MergeCoordinator.check_phase_advancement storePhaseDone 9).1.phases
      = some [phaseT6] ∧
    phaseT6.status = "active" := by
  decide

/-- Witness for `phase_advancement_behaviour`: a conflict outcome leaves
the phase slots alone; with a finished phase 1 of 2 the check activates
phase 2; with a finished final phase it clears the current-phase slot. -/
theorem phase_advancement_behaviour_witness :
    (MergeCoordinator.process_merge storePhaseDone (mreq 0) .conflict 9).currentPhase
      = storePhaseDone.currentPhase ∧
    MergeCoordinator.check_phase_advancement storeTwoPhases 9 =
      (let completed := { phaseOne with status := "completed", completedAt := some 9 }
       let activated := { phaseTwo with status := "active", startedAt := some 9 }
       ({ storeTwoPhases with
            phases := some (([phaseOne, phaseTwo].set 0 completed).set 1 activated),
            currentPhase := some activated }, true)) ∧
    MergeCoordinator.check_phase_advancement storePhaseDone 9
      = ({ storePhaseDone with currentPhase := none }, true) := by
  refine ⟨((phase_advancement_behaviour storePhaseDone (mreq 0) 9 .conflict
      basePhase []).1 (by decide)).1, ?_, ?_⟩
  · exact (phase_advancement_behaviour storeTwoPhases (mreq 0) 9 .conflict
      phaseOne [phaseOne, phaseTwo]).2.2.1 (by decide) (by decide) rfl rfl
      (by decide)
  · exact (phase_advancement_behaviour storePhaseDone (mreq 0) 9 .conflict
      phaseT6 [phaseT6]).2.2.2 rfl rfl (by decide) (by decide)

/-! ## Claim C7: claim followed by unregister -/

theorem findNextLoop_nil (cfg : Config) (now : Int) (s : Store) :
    findNextLoop cfg now [] s = (none, s) := rfl

theorem findNextLoop_cons (cfg : Config) (now : Int) (tid : String)
    (rest : List String) (s : Store) :
    findNextLoop cfg now (tid :: rest) s =
      match hget s.tasks tid with
      | none => findNextLoop cfg now rest s
      | some task =>
        if ¬ task.status = "pending" then findNextLoop cfg now rest s
        else if ¬ typeEnabled cfg task.type_ then findNextLoop cfg now rest s
        else
          match all_dependencies_complete now s task with
          | (true, s1) => (some task, s1)
          | (false, s1) => findNextLoop cfg now rest s1 := rfl

/-- C7 counterexample: claim then unregister of the same worker on a
concrete store leaves a residual started_at stamp in the task record (the
original record had none), so the round trip has a side effect beyond the
reset to pending. -/
theorem claim_unregister_residual_counterexample :
    (hget (unregister_agent
        (claim_task baseConfig 5 storeT7 (some "ai-agent-1")).store
        (some "ai-agent-1")).2.tasks "T7").map Task.startedAt
      = some (some 5) ∧
    pendingT7.startedAt = none := by
  decide

/-- C7 (amended): claiming a pending dependency-free task and then
unregistering the same worker returns the task to "pending" with
assignedTo cleared, deletes the lock (so another worker can claim it) and
removes the worker; but the startedAt stamp written by the claim remains
in the record — the round trip is not free of other side effects. -/
theorem claim_unregister_roundtrip (cfg : Config) (now : Int) (s : Store)
    (aid : String) (ag : Agent) (ph : Phase) (tid : String) (t : Task)
    (hts : s.tasks = [(tid, t)]) (hag : s.agents = [(aid, ag)])
    (hlk : s.locks = []) (hph : s.currentPhase = some ph)
    (hpht : ph.tasks = [tid]) (hid : t.id = tid)
    (hst : t.status = "pending") (hdep : t.dependencies = [])
    (hty : typeEnabled cfg t.type_ = true) (hne : aid.isEmpty = false) :
    (claim_task cfg now s (some aid)).resp
      = .claimed tid (determine_role t.type_) ∧
    (unregister_agent (claim_task cfg now s (some aid)).store
        (some aid)).2.tasks
      = [(tid, { t with status := "pending", assignedTo := none,
                        startedAt := some now })] ∧
    (unregister_agent (claim_task cfg now s (some aid)).store
        (some aid)).2.locks = [] ∧
    (unregister_agent (claim_task cfg now s (some aid)).store
        (some aid)).2.agents = [] := by
  have hdeps : all_dependencies_complete now s t = (true, s) := by
    unfold all_dependencies_complete
    rw [hdep]
    exact depsLoop_nil now t s
  have hfind : find_next_available_task cfg now ph s = (some t, s) := by
    unfold find_next_available_task
    rw [hpht, findNextLoop_cons, hts, hget_cons]
    simp [hst, hty, hdeps]
  have hclaim : claim_task cfg now s (some aid) =
      ⟨.claimed tid (determine_role t.type_),
       { s with
           locks := [(tid, aid)],
           tasks := [(tid, { t with status := "in_progress",
                                    assignedTo := some aid,
                                    startedAt := some now })],
           agents := [(aid, { ag with status := "working",
                                      currentTask := some tid,
                                      currentRole :=
                                        some (determine_role t.type_) })] },
       1⟩ := by
    simp only [claim_task, hne, Bool.false_eq_true, if_false]
    rw [hag, hget_cons]
    simp only [claimLoop, hph, hfind, if_pos rfl]
    rw [hlk, hid, hts, hag]
    simp [hset, hget_nil]
  rw [hclaim]
  refine ⟨rfl, ?_, ?_, ?_⟩ <;>
    simp [unregister_agent, hne, hget_cons, hdel, hset]

/-- Witness for `claim_unregister_roundtrip` on the concrete store. -/
theorem claim_unregister_roundtrip_witness :
    (claim_task baseConfig 5 storeT7 (some "ai-agent-1")).resp
      = .claimed "T7" (determine_role pendingT7.type_) ∧
    (unregister_agent (claim_task baseConfig 5 storeT7 (some "ai-agent-1")).store
        (some "ai-agent-1")).2.tasks
      = [("T7", { pendingT7 with status := "pending", assignedTo := none,
                                 startedAt := some 5 })] ∧
    (unregister_agent (claim_task baseConfig 5 storeT7 (some "ai-agent-1")).store
        (some "ai-agent-1")).2.locks = [] ∧
    (unregister_agent (claim_task baseConfig 5 storeT7 (some "ai-agent-1")).store
        (some "ai-agent-1")).2.agents = [] :=
  claim_unregister_roundtrip baseConfig 5 storeT7 "ai-agent-1" baseAgent
    { basePhase with tasks := ["T7"] } "T7" pendingT7
    rfl rfl rfl rfl rfl rfl rfl rfl (by decide) (by decide)

/-! ## Claim C9: complete_task has no precondition -/

/-- C9: complete_task performs no ownership or state precondition check:
for any store, any agent id (registered or not, owner or not) and any
current status of the task, a truthy pair of parameters with an existing
task yields 200, the task rewritten per the success flag with completedAt
stamped and the lock deleted; an unknown task id yields 404 with the store
unchanged; a missing/empty parameter yields 400 with the store unchanged. -/
theorem complete_task_no_precondition (s : Store) (aid tid : String)
    (success : Bool) (prUrl branchName : Option String) (now : Int)
    (hc : Bool) (t : Task) :
    (aid.isEmpty = false → tid.isEmpty = false → hget s.tasks tid = some t →
      (complete_task s (some aid) (some tid) success prUrl branchName now
          hc).1 = .ok ∧
      (complete_task s (some aid) (some tid) success prUrl branchName now
          hc).2.tasks
        = hset s.tasks tid (completedTaskRecord t success prUrl branchName now) ∧
      (completedTaskRecord t success prUrl branchName now).status
        = (if success then "done" else "failed") ∧
      (completedTaskRecord t success prUrl branchName now).completedAt
        = some now ∧
      (completedTaskRecord t success prUrl branchName now).assignedTo
        = t.assignedTo ∧
      (completedTaskRecord t success prUrl branchName now).startedAt
        = t.startedAt ∧
      hget (complete_task s (some aid) (some tid) success prUrl branchName now
          hc).2.locks tid = none) ∧
    (aid.isEmpty = false → tid.isEmpty = false → hget s.tasks tid = none →
      complete_task s (some aid) (some tid) success prUrl branchName now hc
        = (.notFound, s)) ∧
    (∀ a b : Option String, ¬ strTruthy a = true ∨ ¬ strTruthy b = true →
      complete_task s a b success prUrl branchName now hc
        = (.badRequest, s)) := by
  refine ⟨?_, ?_, ?_⟩
  · intro ha htid ht
    unfold complete_task
    simp only [strTruthy, ha, htid, ht]
    refine ⟨by simp, by simp, ?_, ?_, ?_, ?_, by simp [hget_hdel_self]⟩ <;>
      (unfold completedTaskRecord; split_ifs <;> rfl)
  · intro ha htid ht
    unfold complete_task
    simp [strTruthy, ha, htid, ht]
  · intro a b hab
    unfold complete_task
    rcases hab with h | h
    · simp [h]
    · simp [h]

/-- Witness for `complete_task_no_precondition`: an unregistered agent
"ai-agent-9" completes the already-merged T8 (status overwritten to
"failed", lock deleted); an unknown id gives 404 leaving the store as is;
a missing agent id gives 400. -/
theorem complete_task_no_precondition_witness :
    (complete_task storeT8 (some "ai-agent-9") (some "T8") false none none 7
        false).1 = .ok ∧
    (complete_task storeT8 (some "ai-agent-9") (some "T8") false none none 7
        false).2.tasks
      = hset storeT8.tasks "T8"
          (completedTaskRecord mergedT8 false none none 7) ∧
    hget (complete_task storeT8 (some "ai-agent-9") (some "T8") false none
        none 7 false).2.locks "T8" = none ∧
    complete_task storeT8 (some "ai-agent-9") (some "NOPE") true none none 7
        false = (.notFound, storeT8) ∧
    complete_task storeT8 none (some "T8") true none none 7 false
      = (.badRequest, storeT8) := by
  have h := complete_task_no_precondition storeT8 "ai-agent-9" "T8" false
    none none 7 false mergedT8
  have h1 := h.1 (by decide) (by decide) (by decide)
  have h2 := (complete_task_no_precondition storeT8 "ai-agent-9" "NOPE" true
    none none 7 false mergedT8).2.1 (by decide) (by decide) (by decide)
  have h3 := (complete_task_no_precondition storeT8 "ai-agent-9" "T8" true
    none none 7 false mergedT8).2.2 none (some "T8") (by decide)
  exact ⟨h1.1, h1.2.1, h1.2.2.2.2.2.2, h2, h3⟩

/-! ## Claim C10: missing tasks are skipped by the phase check -/

/-- C10: in the phase-advancement check a task id with no record is
skipped and treated as terminal: the all-complete test succeeds exactly
when every listed id is missing or in {merged, failed, blocked}; in
particular a phase all of whose listed ids are missing fires the
completion branch, and (with a next phase present) is written back to the
phases list as "completed" with the next phase activated. -/
theorem phase_check_missing_tasks (s : Store) (now : Int)
    (tids : List String) (p : Phase) (ps : List Phase) :
    (MergeCoordinator.phaseAllComplete s tids = true ↔
      ∀ tid ∈ tids, hget s.tasks tid = none ∨
        ∃ t, hget s.tasks tid = some t ∧
          (t.status = "merged" ∨ t.status = "failed" ∨
           t.status = "blocked")) ∧
    (s.currentPhase = some p → (∀ tid ∈ p.tasks, hget s.tasks tid = none) →
      (MergeCoordinator.check_phase_advancement s now).2 = true) ∧
    (∀ (h : p.id < ps.length), 1 ≤ p.id → s.currentPhase = some p →
      s.phases = some ps →
      (∀ tid ∈ p.tasks, hget s.tasks tid = none) →
      (MergeCoordinator.check_phase_advancement s now).1.phases =
        some ((ps.set (p.id - 1)
            ({ p with status := "completed", completedAt := some now })).set
          p.id
          ({ ps.get ⟨p.id, h⟩ with status := "active", startedAt := some now }))) := by
  have hiff : MergeCoordinator.phaseAllComplete s tids = true ↔
      ∀ tid ∈ tids, hget s.tasks tid = none ∨
        ∃ t, hget s.tasks tid = some t ∧
          (t.status = "merged" ∨ t.status = "failed" ∨
           t.status = "blocked") := by
    unfold MergeCoordinator.phaseAllComplete
    rw [List.all_eq_true]
    constructor
    · intro h tid htid
      have hx := h tid htid
      cases hg : hget s.tasks tid with
      | none => exact Or.inl rfl
      | some u =>
        rw [hg] at hx
        exact Or.inr ⟨u, rfl, by simpa using hx⟩
    · intro h tid htid
      rcases h tid htid with hnone | ⟨u, hg, hst⟩
      · simp [hnone]
      · simp only [hg]
        simpa using hst
  have hallc : ∀ q : Phase, (∀ tid ∈ q.tasks, hget s.tasks tid = none) →
      MergeCoordinator.phaseAllComplete s q.tasks = true := by
    intro q hmiss
    unfold MergeCoordinator.phaseAllComplete
    rw [List.all_eq_true]
    intro tid htid
    simp [hmiss tid htid]
  refine ⟨hiff, ?_, ?_⟩
  · intro hcp hmiss
    have hac := hallc p hmiss
    rcases hsp : s.phases with _ | ps2
    · unfold MergeCoordinator.check_phase_advancement
      rw [hcp]
      simp only [hac, if_true, hsp]
    · by_cases h2 : p.id < ps2.length
      · unfold MergeCoordinator.check_phase_advancement
        rw [hcp]
        simp only [hac, if_true, hsp]
        rw [dif_pos h2]
      · rw [check_adv_no_next s now p ps2 hcp hsp h2 hac]
  · intro h hpos hcp hps hmiss
    rw [check_adv_next_exists s now p ps h hpos hcp hps (hallc p hmiss)]

/-- Witness for `phase_check_missing_tasks`: a phase listing only missing
ids fires the completion branch and is persisted as completed with the
next phase activated. -/
theorem phase_check_missing_tasks_witness :
    (MergeCoordinator.check_phase_advancement storePhantom 11).2 = true ∧
    (MergeCoordinator.check_phase_advancement storePhantom 11).1.phases =
      some (([phantomPhase, phaseTwo].set 0
          ({ phantomPhase with status := "completed", completedAt := some 11 })).set 1
        ({ phaseTwo with status := "active", startedAt := some 11 })) := by
  have h := phase_check_missing_tasks storePhantom 11 [] phantomPhase
    [phantomPhase, phaseTwo]
  refine ⟨h.2.1 rfl ?_, ?_⟩
  · intro tid _
    rfl
  · have h3 := h.2.2 (by decide) (by decide) rfl rfl ?_
    · exact h3
    · intro tid _
      rfl

end Orchestrator
